import Mathlib

/-!
Shallow embedding of the sprite-animation state machine of
`src/src/game_code/chapter_3.rs`: the frame-sequence data model, the
`SpritesheetAnimator` controller (`new` / `set_state`), the
`animate_sprites` frame-advance system, and the direction-resolution and
stand-state logic of `player_input`.

Modelling conventions:
- machine integers (`i8`, `usize`) are `Int`/`Nat` with explicit
  two's-complement wrapping where the source casts;
- `f32` times and rates are exact rationals;
- a Rust panic is `Option.none`;
- the `HashMap<String, _>` of states is an association list looked up
  with `List.lookup` (the program only ever builds it once and reads it);
- the Bevy `Timer` (an external collaborator of this file's code) is
  modelled from its documented 0.9 behaviour for unpaused timers.
-/

/-- `AnimationStyle` (chapter_3.rs lines 16-19): how an animation continues
after its last frame. -/
inductive AnimationStyle where
  | Once
  | Looping
deriving DecidableEq

/-- Bevy `TimerMode`; the program only ever constructs `Repeating` timers. -/
inductive TimerMode where
  | Once
  | Repeating
deriving DecidableEq

/-- Bevy `Timer` state, durations in seconds as exact rationals.  The pause
flag is omitted: the program never pauses a timer. -/
structure Timer where
  duration : ℚ
  elapsed : ℚ
  mode : TimerMode
  finished : Bool
  timesFinishedThisTick : Nat
deriving DecidableEq

/-- Bevy `Timer::tick` for an unpaused timer (bevy_time 0.9): add the delta
to the elapsed time; a `Repeating` timer that reaches its duration records
how many whole periods elapsed and keeps the remainder, a `Once` timer
saturates at its duration. -/
def Timer.tick (t : Timer) (delta : ℚ) : Timer :=
  match t.mode with
  | TimerMode.Once =>
      if t.finished then { t with timesFinishedThisTick := 0 }
      else
        let e := t.elapsed + delta
        if t.duration ≤ e then
          { t with elapsed := t.duration, finished := true,
                   timesFinishedThisTick := 1 }
        else
          { t with elapsed := e, finished := false,
                   timesFinishedThisTick := 0 }
  | TimerMode.Repeating =>
      let e := t.elapsed + delta
      if t.duration ≤ e then
        { t with elapsed := e - t.duration * ((e / t.duration).floor : ℚ),
                 finished := true,
                 timesFinishedThisTick := (e / t.duration).floor.toNat }
      else
        { t with elapsed := e, finished := false,
                 timesFinishedThisTick := 0 }

/-- Bevy `Timer::just_finished`: the timer finished at least once during the
last `tick` call. -/
def Timer.just_finished (t : Timer) : Bool :=
  decide (0 < t.timesFinishedThisTick)

/-- Bevy `Timer::from_seconds`: builds the duration with
`Duration::from_secs_f32`, which panics when the seconds value is negative
(modelled as `none`). -/
def Timer.from_seconds (secs : ℚ) (mode : TimerMode) : Option Timer :=
  if secs < 0 then none
  else some { duration := secs, elapsed := 0, mode := mode, finished := false,
              timesFinishedThisTick := 0 }

/-- The render-output fields of Bevy's `TextureAtlasSprite` that the program
writes: the atlas cell index and the horizontal flip flag. -/
structure TextureAtlasSprite where
  index : Nat
  flip_x : Bool
deriving DecidableEq

/-- `SpritesheetAnimation` (chapter_3.rs lines 26-30).  `frames` is a
`Vec<i8>` in the source: each entry is an 8-bit signed integer, meant to lie
in `[-128, 127]`. -/
structure SpritesheetAnimation where
  frames : List Int
  fps : ℚ
  looping : AnimationStyle
deriving DecidableEq

/-- `DEFAULT_ANIMATION_FPS` (chapter_3.rs line 25). -/
def DEFAULT_ANIMATION_FPS : ℚ := 5

/-- `SpritesheetAnimation::from_frames` (chapter_3.rs lines 32-38). -/
def SpritesheetAnimation.from_frames (frames : List Int) : SpritesheetAnimation :=
  { frames := frames, fps := DEFAULT_ANIMATION_FPS,
    looping := AnimationStyle.Looping }

/-- `i8::abs`: panics (arithmetic overflow) at `i8::MIN = -128`; defined for
every other `i8` value. -/
def i8Abs (v : Int) : Option Int :=
  if v = -128 then none else some (v.natAbs : Int)

/-- An `i8` value cast `as usize`: two's-complement reinterpretation, i.e.
reduction modulo `2 ^ 64` of the signed value. -/
def i8ToUsize (x : Int) : Nat :=
  (x % (2 : Int) ^ 64).toNat

/-- The render write of `set_state` (chapter_3.rs lines 81-84):
`sprite.index = (idx.abs() - 1) as usize`, `sprite.flip_x = idx < 0`.
There is no modulo here: `set_state` has no access to the texture atlas. -/
def setStateWrite (v : Int) : Option TextureAtlasSprite :=
  (i8Abs v).map fun av =>
    { index := i8ToUsize (av - 1), flip_x := decide (v < 0) }

/-- The render write of `animate_sprites` (chapter_3.rs lines 194-198): the
same computation reduced modulo `texture_atlas.textures.len()`; a `usize`
remainder by zero panics. -/
def tickWrite (v : Int) (numCells : Nat) : Option TextureAtlasSprite :=
  if numCells = 0 then none
  else (i8Abs v).map fun av =>
    { index := i8ToUsize (av - 1) % numCells, flip_x := decide (v < 0) }

/-- `SpritesheetAnimator` (chapter_3.rs lines 44-49). -/
structure SpritesheetAnimator where
  states : List (String × SpritesheetAnimation)
  timer : Timer
  cur_state : String
  cur_frame_idx : Nat
deriving DecidableEq

/-- `SpritesheetAnimator::new` (chapter_3.rs lines 51-69).  Panics (`none`)
when the start state is absent, when its fps is zero (the explicit check),
or when its fps is negative (`Timer::from_seconds` of a negative period). -/
def SpritesheetAnimator.new (states : List (String × SpritesheetAnimation))
    (start_state : String) : Option SpritesheetAnimator :=
  match states.lookup start_state with
  | some anim =>
      if anim.fps = 0 then none
      else
        (Timer.from_seconds (1 / anim.fps) TimerMode.Repeating).map fun t =>
          { states := states, timer := t, cur_state := start_state,
            cur_frame_idx := 0 }
  | none => none

/-- `SpritesheetAnimator::set_state` (chapter_3.rs lines 70-89).  Returns
the source's `bool` result together with the updated animator and sprite;
`none` models the panics (zero fps check, negative-period timer, `i8::abs`
overflow in the render write). -/
def SpritesheetAnimator.set_state (self : SpritesheetAnimator)
    (state_name : String) (sprite : TextureAtlasSprite) :
    Option (Bool × SpritesheetAnimator × TextureAtlasSprite) :=
  match self.states.lookup state_name with
  | some state =>
      if state.fps = 0 then none
      else
        (Timer.from_seconds (1 / state.fps) TimerMode.Repeating).bind fun t =>
          let self' : SpritesheetAnimator :=
            { self with cur_state := state_name, cur_frame_idx := 0,
                        timer := t }
          match state.frames.get? 0 with
          | some texture_idx =>
              (setStateWrite texture_idx).map fun s' => (true, self', s')
          | none => some (true, self', sprite)
  | none => some (false, self, sprite)

/-- The next-frame computation of `animate_sprites` (chapter_3.rs lines
180-191): `next` starts at the current index; at the end of the sequence a
`Looping` animation wraps to 0 and a `Once` animation stays put, otherwise
the index advances by one. -/
def next_frame_idx (anim : SpritesheetAnimation) (cur : Nat) : Nat :=
  if cur + 1 ≥ anim.frames.length then
    match anim.looping with
    | AnimationStyle.Looping => 0
    | AnimationStyle.Once => cur
  else cur + 1

/-- One entity's pass through `animate_sprites` (chapter_3.rs lines
163-204): tick the timer by the frame delta; if it just finished, advance
the frame index per `next_frame_idx` and write the render output for the
new frame.  `numCells` is `texture_atlas.textures.len()` of the (externally
provided, already unwrapped) atlas; `none` models the panics inside the
render write. -/
def animate_sprite (delta : ℚ) (numCells : Nat) (a : SpritesheetAnimator)
    (sprite : TextureAtlasSprite) :
    Option (SpritesheetAnimator × TextureAtlasSprite) :=
  let timer := a.timer.tick delta
  if timer.just_finished then
    match a.states.lookup a.cur_state with
    | some anim =>
        let next := next_frame_idx anim a.cur_frame_idx
        match anim.frames.get? next with
        | some texture_idx =>
            (tickWrite texture_idx numCells).map fun s' =>
              ({ a with timer := timer, cur_frame_idx := next }, s')
        | none => some ({ a with timer := timer, cur_frame_idx := next }, sprite)
    | none => some ({ a with timer := timer }, sprite)
  else some ({ a with timer := timer }, sprite)

/-- `k` successive dispatches of `animate_sprites` for one entity, each with
the same frame delta `d`. -/
def run_ticks (numCells : Nat) (d : ℚ) :
    Nat → SpritesheetAnimator × TextureAtlasSprite →
    Option (SpritesheetAnimator × TextureAtlasSprite)
  | 0, p => some p
  | k + 1, p =>
      (animate_sprite d numCells p.1 p.2).bind (run_ticks numCells d k)

/-- The direction resolution of `player_input` (chapter_3.rs lines
226-255): from the four pressed-key booleans, the facing label (the empty
string when no key is pressed) and the movement vector.  The source's
`0.71` literals are the rationals `71/100`. -/
def resolve_direction (left_pressed up_pressed right_pressed down_pressed : Bool) :
    String × ℚ × ℚ :=
  if left_pressed then
    if up_pressed then ("move-up-left", -71/100, 71/100)
    else if down_pressed then ("move-down-left", -71/100, -71/100)
    else ("move-left", -1, 0)
  else if right_pressed then
    if up_pressed then ("move-up-right", 71/100, 71/100)
    else if down_pressed then ("move-down-right", 71/100, -71/100)
    else ("move-right", 1, 0)
  else if up_pressed then ("move-up", 0, 1)
  else if down_pressed then ("move-down", 0, -1)
  else ("", 0, 0)

/-- The nine-case priority table exactly as the specification words it:
first matching case wins, diagonal pairs before single axes, left-group
before right-group, "no label" rendered as the empty string. -/
def resolve_direction_spec (l u r d : Bool) : String × ℚ × ℚ :=
  if l && u then ("move-up-left", -71/100, 71/100)
  else if l && d then ("move-down-left", -71/100, -71/100)
  else if l then ("move-left", -1, 0)
  else if r && u then ("move-up-right", 71/100, 71/100)
  else if r && d then ("move-down-right", 71/100, -71/100)
  else if r then ("move-right", 1, 0)
  else if u then ("move-up", 0, 1)
  else if d then ("move-down", 0, -1)
  else ("", 0, 0)

/-- Rust `str::starts_with`, modelled on the underlying character lists
(byte-prefix and character-prefix agree for the ASCII patterns the program
uses). -/
def strStartsWith (s pre : String) : Bool :=
  pre.data.isPrefixOf s.data

/-- The state-transition request of `player_input` (chapter_3.rs lines
265-277), as a function of the resolved facing label and the controller's
current state: which target state, if any, `set_state` is called with.
`cur_state.drop 4` renders the source's byte slice `cur_state[4..]`, taken
only under `starts_with("move")` whose four matched bytes are ASCII. -/
def requested_transition (facing : String) (cur_state : String) : Option String :=
  if facing.length > 0 ∧ cur_state ≠ facing then some facing
  else if facing.length = 0 then
    if strStartsWith cur_state "move" then
      some ("stand" ++ cur_state.drop 4)
    else none
  else none

/-- Construction in context: the source `new` takes no sprite argument and
performs no render write, so whatever sprite the entity is spawned with
(in `setup`, a default one) passes through construction unchanged.  This
definition pairs `new` with that untouched sprite so that claims about
render output at construction time can be stated. -/
def new_with_sprite (states : List (String × SpritesheetAnimation))
    (start_state : String) (sprite : TextureAtlasSprite) :
    Option (SpritesheetAnimator × TextureAtlasSprite) :=
  (SpritesheetAnimator.new states start_state).map fun a => (a, sprite)

/-! ### Helper lemmas shared by several claims -/

lemma ratFloorOne : (1 : ℚ).floor = 1 := rfl

/-- The state of a repeating timer right after a tick that spanned exactly
one full period: elapsed phase back at 0, finished once. -/
def Timer.afterFullPeriod (t : Timer) : Timer :=
  { t with elapsed := 0, finished := true, timesFinishedThisTick := 1 }

lemma Timer.tick_full_period (t : Timer) (hmode : t.mode = TimerMode.Repeating)
    (hel : t.elapsed = 0) (hd : 0 < t.duration) :
    t.tick t.duration = t.afterFullPeriod := by
  unfold Timer.afterFullPeriod
  have hne : t.duration ≠ 0 := ne_of_gt hd
  have h1 : t.duration / t.duration = 1 := div_self hne
  unfold Timer.tick
  rw [hmode]
  simp [hel, h1, ratFloorOne]

lemma next_frame_idx_looping (anim : SpritesheetAnimation)
    (hloop : anim.looping = AnimationStyle.Looping)
    (cur : Nat) (hidx : cur < anim.frames.length) :
    next_frame_idx anim cur = (cur + 1) % anim.frames.length := by
  unfold next_frame_idx
  rw [hloop]
  by_cases h : cur + 1 ≥ anim.frames.length
  · have he : cur + 1 = anim.frames.length := le_antisymm hidx h
    simp [h, he, Nat.mod_self]
  · simp [h, Nat.mod_eq_of_lt (lt_of_not_ge h)]

lemma animate_sprite_cases (delta : ℚ) (numCells : Nat)
    (a : SpritesheetAnimator) (s : TextureAtlasSprite)
    (anim : SpritesheetAnimation)
    (hlook : a.states.lookup a.cur_state = some anim)
    (a' : SpritesheetAnimator) (s' : TextureAtlasSprite)
    (h : animate_sprite delta numCells a s = some (a', s')) :
    a'.states = a.states ∧ a'.cur_state = a.cur_state ∧
    a'.cur_frame_idx =
      (if (a.timer.tick delta).just_finished
       then next_frame_idx anim a.cur_frame_idx else a.cur_frame_idx) := by
  unfold animate_sprite at h
  rw [hlook] at h
  by_cases hjf : (a.timer.tick delta).just_finished
  · rw [if_pos hjf]
    simp only [hjf, if_true] at h
    cases hget : anim.frames.get? (next_frame_idx anim a.cur_frame_idx) with
    | some v =>
        rw [hget] at h
        dsimp only at h
        cases hw : tickWrite v numCells with
        | none => rw [hw] at h; simp at h
        | some w =>
            rw [hw] at h
            simp only [Option.map_some', Option.some.injEq, Prod.mk.injEq] at h
            obtain ⟨h1, _⟩ := h
            rw [← h1]
            exact ⟨rfl, rfl, rfl⟩
    | none =>
        rw [hget] at h
        dsimp only at h
        simp only [Option.some.injEq, Prod.mk.injEq] at h
        obtain ⟨h1, _⟩ := h
        rw [← h1]
        exact ⟨rfl, rfl, rfl⟩
  · rw [if_neg hjf]
    simp only [hjf, if_false, Bool.false_eq_true] at h
    simp only [Option.some.injEq, Prod.mk.injEq] at h
    obtain ⟨h1, _⟩ := h
    rw [← h1]
    exact ⟨rfl, rfl, rfl⟩

lemma animate_step_advances (a : SpritesheetAnimator) (s : TextureAtlasSprite)
    (anim : SpritesheetAnimation) (numCells : Nat)
    (hlook : a.states.lookup a.cur_state = some anim)
    (hmode : a.timer.mode = TimerMode.Repeating)
    (hel : a.timer.elapsed = 0) (hd : 0 < a.timer.duration)
    (hnext : next_frame_idx anim a.cur_frame_idx < anim.frames.length)
    (hcells : numCells ≠ 0)
    (hframes : ∀ v ∈ anim.frames, v ≠ -128) :
    ∃ s', animate_sprite a.timer.duration numCells a s =
      some ({ a with timer := a.timer.afterFullPeriod,
                     cur_frame_idx := next_frame_idx anim a.cur_frame_idx },
            s') := by
  have htick := Timer.tick_full_period a.timer hmode hel hd
  obtain ⟨v, hv⟩ : ∃ v,
      anim.frames.get? (next_frame_idx anim a.cur_frame_idx) = some v :=
    ⟨_, List.get?_eq_get hnext⟩
  have hv128 : v ≠ -128 := hframes v (List.get?_mem hv)
  have hw : tickWrite v numCells =
      some { index := i8ToUsize ((v.natAbs : Int) - 1) % numCells,
             flip_x := decide (v < 0) } := by
    unfold tickWrite i8Abs
    rw [if_neg hcells, if_neg hv128]
    rfl
  refine ⟨{ index := i8ToUsize ((v.natAbs : Int) - 1) % numCells,
            flip_x := decide (v < 0) }, ?_⟩
  unfold animate_sprite
  rw [htick]
  have hjf : a.timer.afterFullPeriod.just_finished = true := rfl
  simp only [hjf, if_true, hlook, hv, hw, Option.map_some']

lemma run_ticks_looping (numCells : Nat) (anim : SpritesheetAnimation)
    (hloop : anim.looping = AnimationStyle.Looping)
    (hcells : numCells ≠ 0)
    (hframes : ∀ v ∈ anim.frames, v ≠ -128) :
    ∀ (k : Nat) (a : SpritesheetAnimator) (s : TextureAtlasSprite),
      a.states.lookup a.cur_state = some anim →
      a.cur_frame_idx < anim.frames.length →
      a.timer.mode = TimerMode.Repeating → a.timer.elapsed = 0 →
      0 < a.timer.duration →
      ∃ a' s', run_ticks numCells a.timer.duration k (a, s) = some (a', s') ∧
        a'.cur_frame_idx = (a.cur_frame_idx + k) % anim.frames.length ∧
        a'.states = a.states ∧ a'.cur_state = a.cur_state := by
  intro k
  induction k with
  | zero =>
      intro a s hlook hidx hmode hel hd
      exact ⟨a, s, rfl, by rw [Nat.add_zero, Nat.mod_eq_of_lt hidx], rfl, rfl⟩
  | succ k ih =>
      intro a s hlook hidx hmode hel hd
      have hn0 : 0 < anim.frames.length := Nat.lt_of_le_of_lt (Nat.zero_le _) hidx
      have hnext : next_frame_idx anim a.cur_frame_idx =
          (a.cur_frame_idx + 1) % anim.frames.length :=
        next_frame_idx_looping anim hloop a.cur_frame_idx hidx
      have hlt : next_frame_idx anim a.cur_frame_idx < anim.frames.length := by
        rw [hnext]; exact Nat.mod_lt _ hn0
      obtain ⟨s1, hstep⟩ :=
        animate_step_advances a s anim numCells hlook hmode hel hd hlt hcells hframes
      obtain ⟨a', s', hrun, hidx', hst, hcs⟩ :=
        ih { a with timer := a.timer.afterFullPeriod,
                    cur_frame_idx := next_frame_idx anim a.cur_frame_idx }
           s1 hlook hlt hmode rfl hd
      refine ⟨a', s', ?_, ?_, hst, hcs⟩
      · rw [run_ticks, hstep]
        exact hrun
      · rw [hidx', hnext]
        show ((a.cur_frame_idx + 1) % anim.frames.length + k) % anim.frames.length =
          (a.cur_frame_idx + (k + 1)) % anim.frames.length
        rw [Nat.mod_add_mod]
        congr 1
        omega

/-! ### Claim theorems -/

/-- C1: for every controller and every state name that is not a key of its
table, `set_state` returns failure (`false`) and leaves the controller --
current state, current frame index and timer -- completely unchanged, and
writes nothing to the render output (the sprite is returned untouched). -/
theorem C1_set_state_unknown_is_noop (a : SpritesheetAnimator)
    (sprite : TextureAtlasSprite) (name : String)
    (h : a.states.lookup name = none) :
    a.set_state name sprite = some (false, a, sprite) := by
  unfold SpritesheetAnimator.set_state
  rw [h]

/-- Witness for C1 at a concrete controller and the unknown name
"nonexistent". -/
theorem C1_set_state_unknown_is_noop_witness :
    (SpritesheetAnimator.mk [("stand-down", SpritesheetAnimation.from_frames [1])]
        (Timer.mk 1 0 TimerMode.Repeating false 0) "stand-down" 0).states.lookup
      "nonexistent" = none ∧
    (SpritesheetAnimator.mk [("stand-down", SpritesheetAnimation.from_frames [1])]
        (Timer.mk 1 0 TimerMode.Repeating false 0) "stand-down" 0).set_state
      "nonexistent" (TextureAtlasSprite.mk 0 false) =
    some (false,
      SpritesheetAnimator.mk [("stand-down", SpritesheetAnimation.from_frames [1])]
        (Timer.mk 1 0 TimerMode.Repeating false 0) "stand-down" 0,
      TextureAtlasSprite.mk 0 false) :=
  ⟨by decide, C1_set_state_unknown_is_noop _ _ _ (by decide)⟩

/-- C8: for every snapshot of the four key booleans, the direction
resolution of `player_input` returns exactly the label and movement vector
of the first matching case of the specification's nine-case priority table
(diagonal pairs before single axes, left-group before right-group, empty
label and zero vector when nothing is pressed). -/
theorem C8_direction_priority_table :
    ∀ l u r d, resolve_direction l u r d = resolve_direction_spec l u r d := by
  intro l u r d
  cases l <;> cases u <;> cases r <;> cases d <;> rfl

/-- C9: with no movement key pressed (empty facing label), the caller
requests a transition to the state obtained by replacing the "move" prefix
of the current state with "stand" (rendered as "stand" ++ the remainder
after the 4-byte prefix), and requests nothing when the current state does
not start with "move". -/
theorem C9_stand_state_derivation (s : String) :
    (strStartsWith s "move" = true →
      requested_transition "" s = some ("stand" ++ s.drop 4)) ∧
    (strStartsWith s "move" = false →
      requested_transition "" s = none) := by
  constructor <;> intro h <;> simp [requested_transition, h]

/-- Witness for C9: current state "move-left" with no keys pressed requests
"stand-left"; "stand-left" requests nothing. -/
theorem C9_stand_state_derivation_witness :
    strStartsWith "move-left" "move" = true ∧
    requested_transition "" "move-left" = some "stand-left" ∧
    strStartsWith "stand-left" "move" = false ∧
    requested_transition "" "stand-left" = none := by
  refine ⟨by decide, ?_, by decide, ?_⟩
  · have h := (C9_stand_state_derivation "move-left").1 (by decide)
    rw [h]
    decide
  · exact (C9_stand_state_derivation "stand-left").2 (by decide)

/-- C10: frame values are 8-bit signed integers and both render-output
writes compute `i8::abs` of the frame value, which overflows (panics)
exactly at the minimum value -128; for every other in-range frame value the
write succeeds. -/
theorem C10_abs_overflow_at_i8_min (v : Int) (numCells : Nat)
    (hlo : -128 ≤ v) (hhi : v ≤ 127) (hcells : numCells ≠ 0) :
    (setStateWrite v = none ↔ v = -128) ∧
    (tickWrite v numCells = none ↔ v = -128) := by
  unfold setStateWrite tickWrite i8Abs
  by_cases h : v = -128 <;> simp [h, hcells]

/-- Witness for C10 at the overflowing frame value -128 and the program's
atlas size 15. -/
theorem C10_abs_overflow_at_i8_min_witness :
    ((-128 : Int) ≤ -128 ∧ (-128 : Int) ≤ 127 ∧ (15 : Nat) ≠ 0) ∧
    ((setStateWrite (-128) = none ↔ (-128 : Int) = -128) ∧
     (tickWrite (-128) 15 = none ↔ (-128 : Int) = -128)) :=
  ⟨by decide, C10_abs_overflow_at_i8_min (-128) 15 (by decide) (by decide) (by decide)⟩

/-- C2: for a looping sequence of n frames starting at frame index 0, k
successive dispatches of `animate_sprites`, each spanning exactly one clock
period (delta = period, so each causes exactly one expiration and one frame
advance), leave the frame index at k mod n: the index passes through
1, ..., n-1 in order and returns to 0 after exactly n expirations. -/
theorem C2_looping_returns_after_n_ticks (numCells : Nat)
    (a : SpritesheetAnimator) (s : TextureAtlasSprite)
    (anim : SpritesheetAnimation) (k : Nat)
    (hlook : a.states.lookup a.cur_state = some anim)
    (hloop : anim.looping = AnimationStyle.Looping)
    (hn : 0 < anim.frames.length)
    (hidx0 : a.cur_frame_idx = 0)
    (hmode : a.timer.mode = TimerMode.Repeating)
    (hel : a.timer.elapsed = 0)
    (hd : 0 < a.timer.duration)
    (hcells : numCells ≠ 0)
    (hframes : ∀ v ∈ anim.frames, v ≠ -128) :
    ∃ a' s', run_ticks numCells a.timer.duration k (a, s) = some (a', s') ∧
      a'.cur_frame_idx = k % anim.frames.length := by
  obtain ⟨a', s', hrun, hidx, _, _⟩ :=
    run_ticks_looping numCells anim hloop hcells hframes k a s hlook
      (by rw [hidx0]; exact hn) hmode hel hd
  exact ⟨a', s', hrun, by rw [hidx, hidx0, Nat.zero_add]⟩

/-- Concrete fixture for the C2 witness: the program's "move-down" looping
sequence (frames [1, 2, 1, 3]), clock period 1, phase 0, frame index 0. -/
def loopAnimator : SpritesheetAnimator :=
  SpritesheetAnimator.mk
    [("move-down", SpritesheetAnimation.mk [1, 2, 1, 3] 5 AnimationStyle.Looping)]
    (Timer.mk 1 0 TimerMode.Repeating false 0) "move-down" 0

/-- Witness for C2: after exactly 4 single-period expirations of the
4-frame looping sequence the frame index is back at 0 (4 mod 4). -/
theorem C2_looping_returns_after_n_ticks_witness :
    ((0 : ℚ) < loopAnimator.timer.duration ∧ loopAnimator.cur_frame_idx = 0) ∧
    ∃ a' s', run_ticks 15 loopAnimator.timer.duration 4
        (loopAnimator, TextureAtlasSprite.mk 0 false) = some (a', s') ∧
      a'.cur_frame_idx = 4 % 4 :=
  ⟨⟨by decide, rfl⟩,
    C2_looping_returns_after_n_ticks 15 loopAnimator (TextureAtlasSprite.mk 0 false)
      (SpritesheetAnimation.mk [1, 2, 1, 3] 5 AnimationStyle.Looping) 4
      (by decide) rfl (by decide) rfl rfl rfl (by decide) (by decide) (by decide)⟩

/-- C3: for a sequence with loop policy Once, once the frame index sits at
the last frame n-1, any further dispatch of `animate_sprites` that
completes leaves the frame index at n-1 (and touches neither the current
state nor the table, so nothing can change it until a state transition). -/
theorem C3_once_freezes_at_last_frame (delta : ℚ) (numCells : Nat)
    (a : SpritesheetAnimator) (s : TextureAtlasSprite)
    (anim : SpritesheetAnimation)
    (a' : SpritesheetAnimator) (s' : TextureAtlasSprite)
    (hlook : a.states.lookup a.cur_state = some anim)
    (honce : anim.looping = AnimationStyle.Once)
    (hn : 0 < anim.frames.length)
    (hidx : a.cur_frame_idx = anim.frames.length - 1)
    (hstep : animate_sprite delta numCells a s = some (a', s')) :
    a'.cur_frame_idx = anim.frames.length - 1 ∧
    a'.cur_state = a.cur_state ∧ a'.states = a.states := by
  obtain ⟨hst, hcs, hfi⟩ :=
    animate_sprite_cases delta numCells a s anim hlook a' s' hstep
  refine ⟨?_, hcs, hst⟩
  rw [hfi, hidx]
  by_cases hjf : (a.timer.tick delta).just_finished
  · rw [if_pos hjf]
    unfold next_frame_idx
    rw [honce]
    have hge : anim.frames.length - 1 + 1 ≥ anim.frames.length := by omega
    rw [if_pos hge]
  · rw [if_neg hjf]

/-- Concrete fixture for the C3 witness: a two-frame Once sequence already
sitting at its last frame (index 1), clock period 1, phase 0. -/
def onceAnimator : SpritesheetAnimator :=
  SpritesheetAnimator.mk
    [("attack", SpritesheetAnimation.mk [1, 2] 5 AnimationStyle.Once)]
    (Timer.mk 1 0 TimerMode.Repeating false 0) "attack" 1

/-- The C3 witness fixture after one full-period tick: the timer expired
once but the frame index is still 1. -/
def onceAnimatorAfter : SpritesheetAnimator :=
  SpritesheetAnimator.mk
    [("attack", SpritesheetAnimation.mk [1, 2] 5 AnimationStyle.Once)]
    (Timer.mk 1 0 TimerMode.Repeating true 1) "attack" 1

/-- Witness for C3: one full-period tick on the frozen Once sequence
completes and leaves the frame index at 1 = length - 1. -/
theorem C3_once_freezes_at_last_frame_witness :
    animate_sprite 1 15 onceAnimator (TextureAtlasSprite.mk 0 false) =
      some (onceAnimatorAfter, TextureAtlasSprite.mk 1 false) ∧
    (onceAnimatorAfter.cur_frame_idx = 1 ∧
     onceAnimatorAfter.cur_state = onceAnimator.cur_state ∧
     onceAnimatorAfter.states = onceAnimator.states) := by
  have hstep : animate_sprite 1 15 onceAnimator (TextureAtlasSprite.mk 0 false) =
      some (onceAnimatorAfter, TextureAtlasSprite.mk 1 false) := by
    norm_num [onceAnimator, onceAnimatorAfter, animate_sprite, Timer.tick,
      Timer.just_finished, next_frame_idx, tickWrite, i8Abs, i8ToUsize,
      List.lookup, Rat.floor_def'] <;> decide
  refine ⟨hstep, ?_⟩
  exact C3_once_freezes_at_last_frame 1 15 onceAnimator (TextureAtlasSprite.mk 0 false)
    (SpritesheetAnimation.mk [1, 2] 5 AnimationStyle.Once) onceAnimatorAfter
    (TextureAtlasSprite.mk 1 false) (by decide) rfl (by decide) rfl hstep

/-- Concrete fixture for C7: a three-frame looping sequence with clock
period 1, phase 0, frame index 0. -/
def multiAnimator : SpritesheetAnimator :=
  SpritesheetAnimator.mk
    [("move-m", SpritesheetAnimation.mk [1, 2, 3] 1 AnimationStyle.Looping)]
    (Timer.mk 1 0 TimerMode.Repeating false 0) "move-m" 0

/-- The C7 fixture after one call with delta 2: the repeating timer records
two expirations, yet the frame index advanced only one step. -/
def multiAnimatorAfter : SpritesheetAnimator :=
  SpritesheetAnimator.mk
    [("move-m", SpritesheetAnimation.mk [1, 2, 3] 1 AnimationStyle.Looping)]
    (Timer.mk 1 0 TimerMode.Repeating true 2) "move-m" 1

/-- Counterexample to C7 as stated: a single `animate_sprites` call whose
elapsed value spans two whole clock periods (delta 2, period 1) records two
timer expirations (timesFinishedThisTick = 2) but advances the frame index
only once, from 0 to 1 -- not to 2 as the claim requires. -/
theorem C7_two_periods_single_advance_cex :
    animate_sprite 2 15 multiAnimator (TextureAtlasSprite.mk 0 false) =
      some (multiAnimatorAfter, TextureAtlasSprite.mk 1 false) ∧
    multiAnimatorAfter.timer.timesFinishedThisTick = 2 ∧
    multiAnimatorAfter.cur_frame_idx = 1 ∧ (1 : Nat) ≠ 2 := by
  refine ⟨?_, rfl, rfl, by decide⟩
  norm_num [multiAnimator, multiAnimatorAfter, animate_sprite, Timer.tick,
    Timer.just_finished, next_frame_idx, tickWrite, i8Abs, i8ToUsize,
    List.lookup, Rat.floor_def'] <;> decide

/-- C7 corrected: a single dispatch of `animate_sprites` advances the frame
index at most once per call: exactly one `next_frame_idx` step when the
timer finished at least once during the call, and none otherwise --
regardless of how many whole periods the elapsed value spans. -/
theorem C7_tick_advances_at_most_once (delta : ℚ) (numCells : Nat)
    (a : SpritesheetAnimator) (s : TextureAtlasSprite)
    (anim : SpritesheetAnimation)
    (a' : SpritesheetAnimator) (s' : TextureAtlasSprite)
    (hlook : a.states.lookup a.cur_state = some anim)
    (hstep : animate_sprite delta numCells a s = some (a', s')) :
    a'.cur_frame_idx =
      (if (a.timer.tick delta).just_finished
       then next_frame_idx anim a.cur_frame_idx else a.cur_frame_idx) :=
  (animate_sprite_cases delta numCells a s anim hlook a' s' hstep).2.2

/-- Witness for the corrected C7 on the two-period call: the index lands
exactly on the single `next_frame_idx` step. -/
theorem C7_tick_advances_at_most_once_witness :
    multiAnimator.states.lookup multiAnimator.cur_state =
      some (SpritesheetAnimation.mk [1, 2, 3] 1 AnimationStyle.Looping) ∧
    multiAnimatorAfter.cur_frame_idx =
      (if (multiAnimator.timer.tick 2).just_finished
       then next_frame_idx (SpritesheetAnimation.mk [1, 2, 3] 1 AnimationStyle.Looping)
              multiAnimator.cur_frame_idx
       else multiAnimator.cur_frame_idx) := by
  refine ⟨by decide, ?_⟩
  have hstep : animate_sprite 2 15 multiAnimator (TextureAtlasSprite.mk 0 false) =
      some (multiAnimatorAfter, TextureAtlasSprite.mk 1 false) := by
    norm_num [multiAnimator, multiAnimatorAfter, animate_sprite, Timer.tick,
      Timer.just_finished, next_frame_idx, tickWrite, i8Abs, i8ToUsize,
      List.lookup, Rat.floor_def'] <;> decide
  exact C7_tick_advances_at_most_once 2 15 multiAnimator (TextureAtlasSprite.mk 0 false)
    (SpritesheetAnimation.mk [1, 2, 3] 1 AnimationStyle.Looping) multiAnimatorAfter
    (TextureAtlasSprite.mk 1 false) (by decide) hstep

/-- Counterexample to C4 as stated: with the program's 15-cell atlas, a
successful `set_state` to a sequence whose first frame value is 20 writes
render index abs(20) - 1 = 19, not (abs(20) - 1) mod 15 = 4: the set_state
write path performs no modulo reduction. -/
theorem C4_set_state_no_modulo_cex :
    (SpritesheetAnimator.set_state
        (SpritesheetAnimator.mk
          [("big", SpritesheetAnimation.mk [20] 5 AnimationStyle.Looping)]
          (Timer.mk 1 0 TimerMode.Repeating false 0) "stand-down" 0)
        "big" (TextureAtlasSprite.mk 0 false)).map (fun r => r.2.2.index) =
      some 19 ∧
    ((20 : Int).natAbs - 1) % 15 = 4 ∧ (19 : Nat) ≠ 4 := by
  refine ⟨?_, by decide, by decide⟩
  norm_num [SpritesheetAnimator.set_state, Timer.from_seconds, setStateWrite,
    i8Abs, i8ToUsize, List.lookup] <;> decide

/-- C4 corrected: on every render write with an in-range, non-zero frame
value v above the i8 minimum, the tick-path write emits index
(abs(v) - 1) mod numCells and the set_state-path write emits abs(v) - 1
with no modulo reduction; both emit flip = (v < 0).  In particular frame
value -7 yields index 6 with flip true and frame value 4 yields index 3
with flip false on both paths (their indices are below the cell count). -/
theorem C4_render_encoding (v : Int) (numCells : Nat)
    (hlo : -128 < v) (hhi : v ≤ 127) (hnz : v ≠ 0) (hcells : 0 < numCells) :
    tickWrite v numCells =
      some (TextureAtlasSprite.mk ((v.natAbs - 1) % numCells) (decide (v < 0))) ∧
    setStateWrite v =
      some (TextureAtlasSprite.mk (v.natAbs - 1) (decide (v < 0))) := by
  have h128 : v ≠ -128 := by omega
  have hcast : i8ToUsize ((v.natAbs : Int) - 1) = v.natAbs - 1 := by
    unfold i8ToUsize
    have hp : ((2 : Int) ^ 64) = 18446744073709551616 := by norm_num
    rw [hp]
    omega
  unfold tickWrite setStateWrite i8Abs
  simp only [if_neg (Nat.pos_iff_ne_zero.mp hcells), if_neg h128,
    Option.map_some', hcast]
  exact ⟨trivial, trivial⟩

/-- Witness for the corrected C4 at the claim's own example frame values
-7 and 4 with the program's 15-cell atlas. -/
theorem C4_render_encoding_witness :
    ((-128 : Int) < -7 ∧ (-7 : Int) ≤ 127 ∧ (-7 : Int) ≠ 0 ∧ (0 : Nat) < 15) ∧
    (tickWrite (-7) 15 = some (TextureAtlasSprite.mk 6 true) ∧
     setStateWrite (-7) = some (TextureAtlasSprite.mk 6 true)) ∧
    (tickWrite 4 15 = some (TextureAtlasSprite.mk 3 false) ∧
     setStateWrite 4 = some (TextureAtlasSprite.mk 3 false)) := by
  refine ⟨by decide, ?_, ?_⟩
  · have h := C4_render_encoding (-7) 15 (by decide) (by decide) (by decide) (by decide)
    exact ⟨h.1, h.2⟩
  · have h := C4_render_encoding 4 15 (by decide) (by decide) (by decide) (by decide)
    exact ⟨h.1, h.2⟩

/-- C5: wherever a sequence is activated -- constructing a controller with
a start state, or `set_state` to an existing state -- a non-positive fps
makes the operation panic rather than proceed: fps = 0 trips the explicit
check, and a negative fps gives a negative period on which
`Timer::from_seconds` (`Duration::from_secs_f32`) panics. -/
theorem C5_nonpositive_fps_is_fatal (states : List (String × SpritesheetAnimation))
    (name : String) (anim : SpritesheetAnimation) (timer : Timer)
    (cs : String) (ci : Nat) (sprite : TextureAtlasSprite)
    (hlook : states.lookup name = some anim) (hfps : anim.fps ≤ 0) :
    SpritesheetAnimator.new states name = none ∧
    (SpritesheetAnimator.mk states timer cs ci).set_state name sprite = none := by
  have hdiv : anim.fps < 0 → 1 / anim.fps < 0 := fun h => one_div_neg.mpr h
  constructor
  · unfold SpritesheetAnimator.new
    rw [hlook]
    dsimp only
    rcases lt_or_eq_of_le hfps with hlt | heq
    · rw [if_neg (ne_of_lt hlt)]
      unfold Timer.from_seconds
      rw [if_pos (hdiv hlt)]
      rfl
    · rw [if_pos heq]
  · unfold SpritesheetAnimator.set_state
    dsimp only
    rw [hlook]
    dsimp only
    rcases lt_or_eq_of_le hfps with hlt | heq
    · rw [if_neg (ne_of_lt hlt)]
      unfold Timer.from_seconds
      rw [if_pos (hdiv hlt)]
      rfl
    · rw [if_pos heq]

/-- Witness for C5 at a sequence with the negative fps -3: both activation
sites panic. -/
theorem C5_nonpositive_fps_is_fatal_witness :
    ((-3 : ℚ) ≤ 0) ∧
    (SpritesheetAnimator.new
        [("z", SpritesheetAnimation.mk [1] (-3) AnimationStyle.Looping)] "z" = none ∧
     (SpritesheetAnimator.mk
        [("z", SpritesheetAnimation.mk [1] (-3) AnimationStyle.Looping)]
        (Timer.mk 1 0 TimerMode.Repeating false 0) "z" 0).set_state
       "z" (TextureAtlasSprite.mk 0 false) = none) :=
  ⟨by decide,
    C5_nonpositive_fps_is_fatal
      [("z", SpritesheetAnimation.mk [1] (-3) AnimationStyle.Looping)] "z"
      (SpritesheetAnimation.mk [1] (-3) AnimationStyle.Looping)
      (Timer.mk 1 0 TimerMode.Repeating false 0) "z" 0 (TextureAtlasSprite.mk 0 false)
      (by decide) (by decide)⟩

/-- Counterexample to C6 as stated: constructing a controller on the table
{"s" -> frames [4], fps 5} succeeds, but the first frame's render output is
never written: the sprite keeps its prior value (index 0, no flip) while
the frame-encoding of frame value 4 is index 3 / no flip. -/
theorem C6_no_first_frame_write_cex :
    new_with_sprite [("s", SpritesheetAnimation.mk [4] 5 AnimationStyle.Looping)] "s"
        (TextureAtlasSprite.mk 0 false) =
      some (SpritesheetAnimator.mk
        [("s", SpritesheetAnimation.mk [4] 5 AnimationStyle.Looping)]
        (Timer.mk (1 / 5) 0 TimerMode.Repeating false 0) "s" 0,
        TextureAtlasSprite.mk 0 false) ∧
    setStateWrite 4 = some (TextureAtlasSprite.mk 3 false) ∧
    TextureAtlasSprite.mk 0 false ≠ TextureAtlasSprite.mk 3 false := by
  refine ⟨?_, by decide, by decide⟩
  norm_num [new_with_sprite, SpritesheetAnimator.new, Timer.from_seconds, List.lookup]

/-- C6 corrected: for every table containing the start state with positive
fps, construction succeeds and initializes the frame index to 0 and a
repeating clock of period 1/fps at phase 0 -- but performs no render
write: the sprite passes through construction unchanged (the first render
write happens only on a later tick expiration or set_state). -/
theorem C6_construction_initializes_without_render_write
    (states : List (String × SpritesheetAnimation)) (start : String)
    (anim : SpritesheetAnimation) (sprite : TextureAtlasSprite)
    (hlook : states.lookup start = some anim) (hfps : 0 < anim.fps) :
    new_with_sprite states start sprite =
      some (SpritesheetAnimator.mk states
        (Timer.mk (1 / anim.fps) 0 TimerMode.Repeating false 0) start 0, sprite) := by
  unfold new_with_sprite SpritesheetAnimator.new
  rw [hlook]
  dsimp only
  rw [if_neg (ne_of_gt hfps)]
  unfold Timer.from_seconds
  rw [if_neg (not_lt.mpr (le_of_lt (one_div_pos.mpr hfps)))]
  rfl

/-- Witness for the corrected C6 on the program's "move-down" start state. -/
theorem C6_construction_initializes_without_render_write_witness :
    ((0 : ℚ) < 5) ∧
    new_with_sprite
        [("move-down", SpritesheetAnimation.mk [1, 2, 1, 3] 5 AnimationStyle.Looping)]
        "move-down" (TextureAtlasSprite.mk 0 false) =
      some (SpritesheetAnimator.mk
        [("move-down", SpritesheetAnimation.mk [1, 2, 1, 3] 5 AnimationStyle.Looping)]
        (Timer.mk (1 / 5) 0 TimerMode.Repeating false 0) "move-down" 0,
        TextureAtlasSprite.mk 0 false) :=
  ⟨by decide,
    C6_construction_initializes_without_render_write
      [("move-down", SpritesheetAnimation.mk [1, 2, 1, 3] 5 AnimationStyle.Looping)]
      "move-down" (SpritesheetAnimation.mk [1, 2, 1, 3] 5 AnimationStyle.Looping)
      (TextureAtlasSprite.mk 0 false) (by decide) (by decide)⟩
